import Mathlib

/-!
Verification of the OpenAI-compatible inference API in `src/server.py`.

The server delegates tokenization and text generation to an external
library (Hugging Face `transformers`); we model those external pieces as
function parameters:

* `tok : String → List Nat` models `tokenizer(s).input_ids` without
  truncation; the server always calls the tokenizer with
  `truncation=True, max_length=512`, which we model as `(tok s).take 512`
  (`tokTrunc` below);
* `pipe : PipelineArgs → Option (List GenOut)` models the pre-loaded
  `TextGenerationPipeline`: `none` stands for the pipeline raising an
  exception, `some outs` for a normal return of a list of generations.
  The real pipeline raises on a `None` input, so the handlers below treat
  a `none` prompt as an unconditional generation failure;
* `eosId : Option Nat` models `tokenizer.eos_token_id`;
* `modelDir : String` models the `MODEL_DIR` environment value;
* `newId : String` and `now : Int` model `str(uuid.uuid4())` and
  `int(time.time())`, the only impure inputs of the handlers.

Handlers are functions from the parsed request to an `Outcome` (the value
FastAPI serializes: a 200 response, an `HTTPException` routed through
`http_exception_handler`, or an unhandled exception routed through the
generic 500 handler), paired with the list of pipeline invocations the
handler performed, so that "the model is never invoked" is expressible.

Request/response records mirror the pydantic models.  Python
`Optional[float]` fields (`temperature`, `top_p`) are modelled as
`Option Rat`: the server never does arithmetic on them, it only
evaluates `do_sample=req.temperature > 0` — which raises a `TypeError`
on a null temperature, inside the `try`, before the pipeline is ever
entered, so that request gets a 500 with zero pipeline calls — and
forwards the values verbatim.  Fields the handlers never read
(`function_call` on the chat request, `logprobs` on a text choice,
which is always `None`) are omitted.
-/

namespace Server

/-- One element of the list returned by the `transformers` text-generation
pipeline: a dict with a `generated_text` key. -/
structure GenOut where
  generated_text : String
  deriving Repr, DecidableEq

/-- The keyword arguments of the single pipeline call made by
`completions` / `chat_completions` (`server.py` lines 176-185 and
236-245).  `prompt` is an `Option` because the chat handler can pass the
`None` content of a user message. -/
structure PipelineArgs where
  prompt : Option String
  max_new_tokens : Option Int
  do_sample : Bool
  temperature : Rat
  top_p : Option Rat
  num_return_sequences : Option Int
  eos_token_id : Option Nat
  pad_token_id : Option Nat
  deriving Repr, DecidableEq

/-- pydantic `CompletionRequest` (lines 27-36), with the pydantic field
defaults.  `temperature` and `top_p` are `Optional[float]`: a client
may send an explicit null, which the handlers only survive up to the
`do_sample=req.temperature > 0` evaluation. -/
structure CompletionRequest where
  model : Option String := none
  prompt : Option (List String) := none
  max_tokens : Option Int := some 16
  max_new_tokens : Option Int := none
  temperature : Option Rat := some 1
  top_p : Option Rat := some 1
  n : Option Int := some 1
  stream : Option Bool := some false
  stop : Option (List String) := none
  deriving Repr, DecidableEq

/-- pydantic `TextChoice` (lines 38-42); `logprobs` is always `None` and
is omitted. -/
structure TextChoice where
  text : String
  index : Nat
  finish_reason : Option String := none
  deriving Repr, DecidableEq

/-- The `usage` dict (lines 191, 199): prompt/completion/total token
counts. -/
structure Usage where
  prompt_tokens : Nat
  completion_tokens : Nat
  total_tokens : Nat
  deriving Repr, DecidableEq

/-- pydantic `CompletionResponse` (lines 44-50). -/
structure CompletionResponse where
  id : String
  object : String := "text_completion"
  created : Int
  model : String
  choices : List TextChoice
  usage : Usage
  deriving Repr, DecidableEq

/-- pydantic `ChatMessage` (lines 52-54); `content` is `Optional`. -/
structure ChatMessage where
  role : String
  content : Option String := none
  deriving Repr, DecidableEq

/-- pydantic `FunctionSpec` (lines 56-59).  `parameters: Dict[str, Any]`
is modelled as an association list of strings; the handlers never read
it, only the presence of a `FunctionSpec` and its `name` matter. -/
structure FunctionSpec where
  name : String
  description : Option String := none
  parameters : List (String × String) := []
  deriving Repr, DecidableEq

/-- pydantic `ChatCompletionRequest` (lines 61-72), with the pydantic
field defaults; `function_call` is never read and is omitted. -/
structure ChatCompletionRequest where
  model : Option String := none
  messages : List ChatMessage
  functions : Option (List FunctionSpec) := none
  max_tokens : Option Int := some 16
  max_new_tokens : Option Int := none
  temperature : Option Rat := some 1
  top_p : Option Rat := some 1
  n : Option Int := some 1
  stream : Option Bool := some false
  stop : Option (List String) := none
  deriving Repr, DecidableEq

/-- pydantic `ChatChoice` (lines 74-78); `function_call` is either
`None` or a dict `{"name": ..., "arguments": ...}`, modelled as an
optional pair. -/
structure ChatChoice where
  index : Nat
  message : ChatMessage
  finish_reason : Option String := none
  function_call : Option (String × String) := none
  deriving Repr, DecidableEq

/-- pydantic `ChatCompletionResponse` (lines 80-86). -/
structure ChatCompletionResponse where
  id : String
  object : String := "chat.completion"
  created : Int
  model : String
  choices : List ChatChoice
  usage : Usage
  deriving Repr, DecidableEq

/-- The JSON error envelope produced by the exception handlers
(lines 100-107, 130-138). -/
structure ErrorBody where
  message : String
  type : String
  param : Option String := none
  code : Option String := none
  deriving Repr, DecidableEq

/-- What a handler hands to FastAPI: a 200 response body, an
`HTTPException(status, detail)` (routed through
`http_exception_handler`), or an exception escaping the handler (routed
through the generic handler as a plain 500). -/
inductive Outcome (α : Type) where
  | ok : α → Outcome α
  | httpError : Nat → String → Outcome α
  | serverError : Outcome α
  deriving Repr, DecidableEq

/-- HTTP status code of an outcome. -/
def statusOf {α : Type} : Outcome α → Nat
  | .ok _ => 200
  | .httpError s _ => s
  | .serverError => 500

/-- `@app.exception_handler(HTTPException)` (lines 95-108): every
`HTTPException` becomes its status code and a JSON error body with
`type` fixed to `"invalid_request_error"`. -/
def http_exception_handler (status : Nat) (detail : String) : Nat × ErrorBody :=
  (status, { message := detail, type := "invalid_request_error", param := none, code := none })

/-- `@app.exception_handler(Exception)` (lines 126-139): any unhandled
exception becomes a 500 with `type` `"server_error"`. -/
def generic_exception_handler : Nat × ErrorBody :=
  (500, { message := "Internal server error", type := "server_error", param := none, code := none })

/-- `tokenizer(s, truncation=True, max_length=512).input_ids` length:
the token list truncated to at most 512 ids, then counted. -/
def tokTrunc (tok : String → List Nat) (s : String) : Nat :=
  ((tok s).take 512).length

/-- Python's `a or b` for an optional string `a`: falls through to `b`
when `a` is `None` or empty (used as `req.model or MODEL_DIR`). -/
def pyOr (a : Option String) (b : String) : String :=
  match a with
  | none => b
  | some s => if s = "" then b else s

/-- `req.max_new_tokens if req.max_new_tokens is not None else
req.max_tokens` (lines 173, 217). -/
def maxTokensToUse (max_new_tokens max_tokens : Option Int) : Option Int :=
  match max_new_tokens with
  | some v => some v
  | none => max_tokens

/-- The keyword arguments of the pipeline call in `completions`
(lines 176-185), for a request whose `temperature` is the non-null
value `t` (otherwise `do_sample=req.temperature > 0` raises before the
call is made and no argument record exists). -/
def completionArgs (req : CompletionRequest) (p : String) (t : Rat) (eosId : Option Nat) :
    PipelineArgs where
  prompt := some p
  max_new_tokens := maxTokensToUse req.max_new_tokens req.max_tokens
  do_sample := decide (0 < t)
  temperature := t
  top_p := req.top_p
  num_return_sequences := req.n
  eos_token_id := eosId
  pad_token_id := eosId

/-- `out["generated_text"][len(prompt):]` (lines 194, 254). -/
def completionText (p : String) (out : GenOut) : String :=
  out.generated_text.drop p.length

/-- The response body built by `completions` from the pipeline outputs
(lines 190-206): one `TextChoice` per output, usage re-tokenized with
truncation at 512. -/
def completionSuccess (tok : String → List Nat) (modelDir newId : String) (now : Int)
    (req : CompletionRequest) (p : String) (outs : List GenOut) : CompletionResponse :=
  let pt := tokTrunc tok p
  let ct := (outs.map fun out => tokTrunc tok (completionText p out)).sum
  { id := newId
    created := now
    model := pyOr req.model modelDir
    choices := outs.enum.map fun io =>
      { text := completionText p io.2, index := io.1, finish_reason := some "stop" }
    usage := { prompt_tokens := pt, completion_tokens := ct, total_tokens := pt + ct } }

/-- The `/v1/completions` handler (lines 166-206).  Returns the outcome
FastAPI serializes together with the list of pipeline invocations
performed.  A null `temperature` makes the argument expression
`do_sample=req.temperature > 0` raise a `TypeError` inside the `try`,
before `pipeline.__call__` is entered: the handler answers 500 "Text
generation failed" having made zero pipeline calls. -/
def completions (tok : String → List Nat) (pipe : PipelineArgs → Option (List GenOut))
    (modelDir : String) (eosId : Option Nat) (newId : String) (now : Int)
    (req : CompletionRequest) :
    Outcome CompletionResponse × List PipelineArgs :=
  match req.prompt with
  | some (p :: _) =>
    match req.temperature with
    | none => (.httpError 500 "Text generation failed", [])
    | some t =>
      let args := completionArgs req p t eosId
      match pipe args with
      | none => (.httpError 500 "Text generation failed", [args])
      | some outs => (.ok (completionSuccess tok modelDir newId now req p outs), [args])
  -- `if not req.prompt:` rejects both a missing and an empty prompt list
  | _ => (.httpError 400 "`prompt` is required", [])

/-- `user_msgs = [m.content for m in req.messages if m.role == "user"]`
followed by `user_msgs[-1]` (lines 211, 214): `none` when there is no
user-role message, else the content (possibly `None`) of the last one. -/
def lastUserContent (messages : List ChatMessage) : Option (Option String) :=
  ((messages.filter fun m => m.role == "user").map fun m => m.content).getLast?

/-- The keyword arguments of the pipeline call in `chat_completions`
(lines 236-245), for a request whose `temperature` is the non-null
value `t` (see `completionArgs`). -/
def chatArgs (req : ChatCompletionRequest) (prompt : Option String) (t : Rat)
    (eosId : Option Nat) : PipelineArgs where
  prompt := prompt
  max_new_tokens := maxTokensToUse req.max_new_tokens req.max_tokens
  do_sample := decide (0 < t)
  temperature := t
  top_p := req.top_p
  num_return_sequences := req.n
  eos_token_id := eosId
  pad_token_id := eosId

/-- The stub function-call response built by `chat_completions` when
`req.functions` is non-empty (lines 220-233): a single choice with
`finish_reason` `"function_call"` naming the first supplied function,
with `arguments` the literal two-character JSON object string. -/
def chatStubResponse (tok : String → List Nat) (modelDir newId : String) (now : Int)
    (req : ChatCompletionRequest) (func : FunctionSpec) (prompt : String) :
    ChatCompletionResponse :=
  let pt := tokTrunc tok prompt
  { id := newId
    created := now
    model := pyOr req.model modelDir
    choices := [{ index := 0
                  message := { role := "assistant", content := some "" }
                  finish_reason := some "function_call"
                  function_call := some (func.name, "\x7b\x7d") }]
    usage := { prompt_tokens := pt, completion_tokens := 0, total_tokens := pt } }

/-- The response body built by `chat_completions` from the pipeline
outputs (lines 250-270). -/
def chatSuccess (tok : String → List Nat) (modelDir newId : String) (now : Int)
    (req : ChatCompletionRequest) (prompt : String) (outs : List GenOut) :
    ChatCompletionResponse :=
  let pt := tokTrunc tok prompt
  let ct := (outs.map fun out => tokTrunc tok (completionText prompt out)).sum
  { id := newId
    created := now
    model := pyOr req.model modelDir
    choices := outs.enum.map fun io =>
      { index := io.1
        message := { role := "assistant", content := some (completionText prompt io.2) }
        finish_reason := some "stop" }
    usage := { prompt_tokens := pt, completion_tokens := ct, total_tokens := pt + ct } }

/-- The `/v1/chat/completions` handler (lines 209-270).  The
`req.functions` truthiness test takes the stub function-call branch
exactly when the list is present and non-empty.  In that branch the
usage dict tokenizes `prompt` outside any `try`, so a `None` content of
the last user message is an uncaught `TypeError` (generic 500); in the
generation branch a null `temperature` makes the argument expression
`do_sample=req.temperature > 0` raise before the pipeline is entered
(500 with zero pipeline calls), and a `None` prompt makes the pipeline
itself raise; either way the local `try` converts the exception to
`HTTPException(500, "Chat generation failed")`. -/
def chat_completions (tok : String → List Nat) (pipe : PipelineArgs → Option (List GenOut))
    (modelDir : String) (eosId : Option Nat) (newId : String) (now : Int)
    (req : ChatCompletionRequest) :
    Outcome ChatCompletionResponse × List PipelineArgs :=
  match lastUserContent req.messages with
  | none => (.httpError 400 "No user messages provided", [])
  | some promptOpt =>
    match req.functions with
    | some (func :: _) =>
      match promptOpt with
      | none => (.serverError, [])
      | some prompt => (.ok (chatStubResponse tok modelDir newId now req func prompt), [])
    | _ =>
      match req.temperature with
      | none => (.httpError 500 "Chat generation failed", [])
      | some t =>
        let args := chatArgs req promptOpt t eosId
        match promptOpt with
        | none => (.httpError 500 "Chat generation failed", [args])
        | some prompt =>
          match pipe args with
          | none => (.httpError 500 "Chat generation failed", [args])
          | some outs => (.ok (chatSuccess tok modelDir newId now req prompt outs), [args])

/-- The response of `call_tool` (lines 273-285). -/
structure ToolResponse where
  tool_name : String
  output : String
  deriving Repr, DecidableEq

/-- The `/v1/tools/{tool_name}` handler (lines 273-285): echoes a canned
string built from the tool name and the Python repr of the args dict
(`argsRepr` models `f string formatting of args`); paired, like the
other handlers, with its (empty) list of pipeline invocations. -/
def call_tool (tool_name : String) (argsRepr : String) :
    Outcome ToolResponse × List PipelineArgs :=
  (.ok { tool_name := tool_name
         output := "Executed " ++ tool_name ++ " with args " ++ argsRepr },
   [])

/-! ### Concrete fixtures

Used by witnesses and counterexamples to evaluate the handlers on
closed inputs. -/

/-- A concrete tokenizer: one token id per character of the input. -/
def tok0 : String → List Nat := fun s => List.replicate s.length 0

/-- A concrete pipeline that always succeeds with a single generation
whose `generated_text` is the fixed string `"hi there"`. -/
def pipe0 : PipelineArgs → Option (List GenOut) :=
  fun _ => some [{ generated_text := "hi there" }]

/-- The single output list produced by `pipe0`. -/
def outsW : List GenOut := [{ generated_text := "hi there" }]

/-- A completion request with prompt list `["hi"]` and all other fields
at their pydantic defaults. -/
def reqW : CompletionRequest := { prompt := some ["hi"] }

/-- A completion request whose prompt list is non-empty but whose first
element is the empty string. -/
def reqEmptyStr : CompletionRequest := { prompt := some [""] }

/-- A completion request with an explicit null `temperature`, which
pydantic `Optional[float]` accepts. -/
def reqNullTemp : CompletionRequest := { prompt := some ["hi"], temperature := none }

/-- Two completion requests identical except for `stop`. -/
def reqStopA : CompletionRequest := { prompt := some ["hi"], stop := none }

/-- See `reqStopA`. -/
def reqStopB : CompletionRequest := { prompt := some ["hi"], stop := some ["done"] }

/-- A function spec fixture. -/
def fnW : FunctionSpec := { name := "get_weather" }

/-- A chat request with a single user message `"hi"` and no functions. -/
def creqW : ChatCompletionRequest := { messages := [{ role := "user", content := some "hi" }] }

/-- A chat request with a single user message `"hi"` and one function. -/
def creqFn : ChatCompletionRequest :=
  { messages := [{ role := "user", content := some "hi" }], functions := some [fnW] }

/-- A chat request with one user-role message whose `content` is `None`
(pydantic allows it), and a non-empty `functions` list. -/
def creqNull : ChatCompletionRequest :=
  { messages := [{ role := "user", content := none }], functions := some [fnW] }

/-- A chat request with only system/assistant messages. -/
def creqNoUser : ChatCompletionRequest :=
  { messages := [{ role := "system", content := some "be nice" },
                 { role := "assistant", content := some "ok" }] }

/-- A message list with system, assistant and two user messages, the
last user content being `"hi"`. -/
def msgsLong : List ChatMessage :=
  [{ role := "system", content := some "be nice" },
   { role := "user", content := some "earlier question" },
   { role := "assistant", content := some "earlier answer" },
   { role := "user", content := some "hi" }]

/-- A message list with a single user message `"hi"`. -/
def msgsShort : List ChatMessage := [{ role := "user", content := some "hi" }]

/-! ### Theorems -/

/-- Claim C1: for every `/v1/completions` request with a non-empty
prompt list (and a generation that returns normally — which requires a
non-null `temperature`, since a null one raises before the pipeline is
entered), the handler returns a successful response in which
`usage.total_tokens` equals `usage.prompt_tokens +
usage.completion_tokens`, and the choices list has exactly one choice
per pipeline output — so exactly one choice when the pipeline returns a
single sequence, as it does for the default `n = 1`. -/
theorem completions_usage_total_and_single_choice
    (tok : String → List Nat) (pipe : PipelineArgs → Option (List GenOut))
    (modelDir : String) (eosId : Option Nat) (newId : String) (now : Int)
    (req : CompletionRequest) (p : String) (rest : List String) (t : Rat)
    (outs : List GenOut)
    (hp : req.prompt = some (p :: rest))
    (ht : req.temperature = some t)
    (hpipe : pipe (completionArgs req p t eosId) = some outs) :
    (completions tok pipe modelDir eosId newId now req).1 =
      .ok (completionSuccess tok modelDir newId now req p outs) ∧
    (completionSuccess tok modelDir newId now req p outs).usage.total_tokens =
      (completionSuccess tok modelDir newId now req p outs).usage.prompt_tokens +
      (completionSuccess tok modelDir newId now req p outs).usage.completion_tokens ∧
    (completionSuccess tok modelDir newId now req p outs).choices.length = outs.length := by
  refine ⟨?_, rfl, ?_⟩
  · unfold completions
    rw [hp, ht]
    dsimp only
    rw [hpipe]
  · simp [completionSuccess, List.enum_length]

/-- Witness for C1 at a concrete request with prompt `["hi"]`, the
default temperature, and the concrete pipeline `pipe0`. -/
theorem completions_usage_total_and_single_choice_witness :
    reqW.prompt = some ("hi" :: []) ∧
    reqW.temperature = some 1 ∧
    pipe0 (completionArgs reqW "hi" 1 none) = some outsW ∧
    ((completions tok0 pipe0 "model" none "id" 7 reqW).1 =
        .ok (completionSuccess tok0 "model" "id" 7 reqW "hi" outsW) ∧
      (completionSuccess tok0 "model" "id" 7 reqW "hi" outsW).usage.total_tokens =
        (completionSuccess tok0 "model" "id" 7 reqW "hi" outsW).usage.prompt_tokens +
        (completionSuccess tok0 "model" "id" 7 reqW "hi" outsW).usage.completion_tokens ∧
      (completionSuccess tok0 "model" "id" 7 reqW "hi" outsW).choices.length = outsW.length) :=
  ⟨rfl, rfl, rfl,
    completions_usage_total_and_single_choice tok0 pipe0 "model" none "id" 7 reqW
      "hi" [] 1 outsW rfl rfl rfl⟩

/-- Claim C2: a `/v1/completions` request whose prompt list is absent or
empty is answered with HTTP 400 and no pipeline invocation, and the
`HTTPException` handler renders the 400 as a JSON error body whose
`type` is `"invalid_request_error"`. -/
theorem completions_empty_prompt_400
    (tok : String → List Nat) (pipe : PipelineArgs → Option (List GenOut))
    (modelDir : String) (eosId : Option Nat) (newId : String) (now : Int)
    (req : CompletionRequest)
    (h : req.prompt = none ∨ req.prompt = some []) :
    completions tok pipe modelDir eosId newId now req =
      (.httpError 400 "`prompt` is required", []) ∧
    statusOf (completions tok pipe modelDir eosId newId now req).1 = 400 ∧
    http_exception_handler 400 "`prompt` is required" =
      (400, { message := "`prompt` is required", type := "invalid_request_error",
              param := none, code := none }) := by
  have hmain : completions tok pipe modelDir eosId newId now req =
      (.httpError 400 "`prompt` is required", []) := by
    unfold completions
    rcases h with h | h <;> rw [h]
  exact ⟨hmain, by rw [hmain]; rfl, rfl⟩

/-- Witness for C2 at a concrete request with an absent prompt. -/
theorem completions_empty_prompt_400_witness :
    (CompletionRequest.prompt {} = none ∨ CompletionRequest.prompt {} = some []) ∧
    (completions tok0 pipe0 "model" none "id" 7 {} =
        (.httpError 400 "`prompt` is required", []) ∧
      statusOf (completions tok0 pipe0 "model" none "id" 7 {}).1 = 400 ∧
      http_exception_handler 400 "`prompt` is required" =
        (400, { message := "`prompt` is required", type := "invalid_request_error",
                param := none, code := none })) :=
  ⟨Or.inl rfl,
    completions_empty_prompt_400 tok0 pipe0 "model" none "id" 7 {} (Or.inl rfl)⟩

/-- Claim C5: a `/v1/chat/completions` request in which no message has
role `"user"` is answered with HTTP 400 and no pipeline invocation. -/
theorem chat_no_user_message_400
    (tok : String → List Nat) (pipe : PipelineArgs → Option (List GenOut))
    (modelDir : String) (eosId : Option Nat) (newId : String) (now : Int)
    (req : ChatCompletionRequest)
    (h : ∀ m ∈ req.messages, m.role ≠ "user") :
    chat_completions tok pipe modelDir eosId newId now req =
      (.httpError 400 "No user messages provided", []) ∧
    statusOf (chat_completions tok pipe modelDir eosId newId now req).1 = 400 ∧
    http_exception_handler 400 "No user messages provided" =
      (400, { message := "No user messages provided", type := "invalid_request_error",
              param := none, code := none }) := by
  have hl : lastUserContent req.messages = none := by
    unfold lastUserContent
    have hf : req.messages.filter (fun m => m.role == "user") = [] :=
      List.filter_eq_nil_iff.mpr (fun m hm => by simp [h m hm])
    rw [hf]
    rfl
  have hmain : chat_completions tok pipe modelDir eosId newId now req =
      (.httpError 400 "No user messages provided", []) := by
    unfold chat_completions
    rw [hl]
  exact ⟨hmain, by rw [hmain]; rfl, rfl⟩

/-- Witness for C5 at a concrete request with only system and assistant
messages. -/
theorem chat_no_user_message_400_witness :
    (∀ m ∈ creqNoUser.messages, m.role ≠ "user") ∧
    (chat_completions tok0 pipe0 "model" none "id" 7 creqNoUser =
        (.httpError 400 "No user messages provided", []) ∧
      statusOf (chat_completions tok0 pipe0 "model" none "id" 7 creqNoUser).1 = 400 ∧
      http_exception_handler 400 "No user messages provided" =
        (400, { message := "No user messages provided", type := "invalid_request_error",
                param := none, code := none })) :=
  ⟨by decide,
    chat_no_user_message_400 tok0 pipe0 "model" none "id" 7 creqNoUser (by decide)⟩

/-- Claim C7: the `stream` request flag has no effect.  Two requests to
either endpoint that are identical except for `stream` lead to
identical results: the same pipeline invocations and the same outcome
(id and created time are inputs of the model, so with the same fresh id
and timestamp the responses are identical). -/
theorem stream_flag_has_no_effect
    (tok : String → List Nat) (pipe : PipelineArgs → Option (List GenOut))
    (modelDir : String) (eosId : Option Nat) (newId : String) (now : Int)
    (req : CompletionRequest) (creq : ChatCompletionRequest) (b₁ b₂ : Option Bool) :
    completions tok pipe modelDir eosId newId now { req with stream := b₁ } =
      completions tok pipe modelDir eosId newId now { req with stream := b₂ } ∧
    chat_completions tok pipe modelDir eosId newId now { creq with stream := b₁ } =
      chat_completions tok pipe modelDir eosId newId now { creq with stream := b₂ } := by
  cases req
  cases creq
  exact ⟨rfl, rfl⟩

/-- Claim C8: for every tool name and args repr, `POST /v1/tools/{tool
name}` answers 200 with the canned echo body, performing no tool
execution and no pipeline invocation. -/
theorem call_tool_stub_echo (tool_name : String) (argsRepr : String) :
    call_tool tool_name argsRepr =
      (.ok { tool_name := tool_name
             output := "Executed " ++ tool_name ++ " with args " ++ argsRepr }, []) ∧
    statusOf (call_tool tool_name argsRepr).1 = 200 :=
  ⟨rfl, rfl⟩

/-- Counterexample to claim C3 as stated: a chat request with one
user-role message whose `content` is `None` (which pydantic accepts)
and a non-empty `functions` list does not produce a `function_call`
response: the usage computation tokenizes the `None` prompt outside any
`try`, so the handler raises and the generic handler answers 500.  (The
pipeline is still never invoked.) -/
theorem chat_functions_null_content_500 :
    chat_completions tok0 pipe0 "model" none "id" 7 creqNull = (.serverError, []) ∧
    statusOf (chat_completions tok0 pipe0 "model" none "id" 7 creqNull).1 = 500 :=
  ⟨by decide, by decide⟩

/-- Claim C3 amended: for a chat request with at least one user-role
message and a non-empty `functions` list, the pipeline is never
invoked; and provided the last user-role message has non-null content,
the handler returns the stub response whose single choice has
`finish_reason` `"function_call"` naming the first supplied function. -/
theorem chat_functions_stub_short_circuit
    (tok : String → List Nat) (pipe : PipelineArgs → Option (List GenOut))
    (modelDir : String) (eosId : Option Nat) (newId : String) (now : Int)
    (req : ChatCompletionRequest) (promptOpt : Option String)
    (func : FunctionSpec) (fs : List FunctionSpec)
    (hu : lastUserContent req.messages = some promptOpt)
    (hfn : req.functions = some (func :: fs)) :
    (chat_completions tok pipe modelDir eosId newId now req).2 = [] ∧
    ∀ prompt, promptOpt = some prompt →
      chat_completions tok pipe modelDir eosId newId now req =
        (.ok (chatStubResponse tok modelDir newId now req func prompt), []) ∧
      (chatStubResponse tok modelDir newId now req func prompt).choices =
        [{ index := 0
           message := { role := "assistant", content := some "" }
           finish_reason := some "function_call"
           function_call := some (func.name, "\x7b\x7d") }] := by
  unfold chat_completions
  rw [hu, hfn]
  dsimp only
  cases promptOpt with
  | none =>
    exact ⟨rfl, fun prompt h => by cases h⟩
  | some prompt₀ =>
    refine ⟨rfl, ?_⟩
    intro prompt h
    injection h with h
    subst h
    exact ⟨rfl, rfl⟩

/-- Witness for the amended C3 at a concrete chat request with user
message `"hi"` and one function `fnW`. -/
theorem chat_functions_stub_short_circuit_witness :
    lastUserContent creqFn.messages = some (some "hi") ∧
    creqFn.functions = some (fnW :: []) ∧
    (chat_completions tok0 pipe0 "model" none "id" 7 creqFn).2 = [] ∧
    chat_completions tok0 pipe0 "model" none "id" 7 creqFn =
      (.ok (chatStubResponse tok0 "model" "id" 7 creqFn fnW "hi"), []) ∧
    (chatStubResponse tok0 "model" "id" 7 creqFn fnW "hi").choices =
      [{ index := 0
         message := { role := "assistant", content := some "" }
         finish_reason := some "function_call"
         function_call := some (fnW.name, "\x7b\x7d") }] :=
  ⟨rfl, rfl,
    (chat_functions_stub_short_circuit tok0 pipe0 "model" none "id" 7 creqFn
      (some "hi") fnW [] rfl rfl).1,
    ((chat_functions_stub_short_circuit tok0 pipe0 "model" none "id" 7 creqFn
      (some "hi") fnW [] rfl rfl).2 "hi" rfl).1,
    ((chat_functions_stub_short_circuit tok0 pipe0 "model" none "id" 7 creqFn
      (some "hi") fnW [] rfl rfl).2 "hi" rfl).2⟩

/-- Counterexample to claim C4 as stated: the request whose prompt list
is `[""]` (non-empty list, empty first element) is not rejected — the
handler invokes the pipeline once, on the empty prompt, and answers
HTTP 200. -/
theorem completions_empty_string_prompt_processed :
    statusOf (completions tok0 pipe0 "model" none "id" 7 reqEmptyStr).1 = 200 ∧
    (completions tok0 pipe0 "model" none "id" 7 reqEmptyStr).2 =
      [completionArgs reqEmptyStr "" 1 none] :=
  ⟨by decide, by decide⟩

/-- Claim C4 amended: `/v1/completions` rejects only an absent or empty
prompt list; any request with a non-empty prompt list — the first
element may be any string, including the empty one — is never answered
with the 400 validation error, and whenever its `temperature` is
non-null (in particular at the default) its first element is passed to
the pipeline as the prompt.  (A null `temperature` instead raises in
the `do_sample` computation inside the `try`: 500, zero pipeline
calls.) -/
theorem completions_accepts_any_first_element
    (tok : String → List Nat) (pipe : PipelineArgs → Option (List GenOut))
    (modelDir : String) (eosId : Option Nat) (newId : String) (now : Int)
    (req : CompletionRequest) (p : String) (rest : List String)
    (hp : req.prompt = some (p :: rest)) :
    statusOf (completions tok pipe modelDir eosId newId now req).1 ≠ 400 ∧
    ∀ t, req.temperature = some t →
      (completions tok pipe modelDir eosId newId now req).2 =
        [completionArgs req p t eosId] ∧
      (completionArgs req p t eosId).prompt = some p := by
  unfold completions
  rw [hp]
  dsimp only
  constructor
  · cases ht : req.temperature with
    | none => simp [statusOf]
    | some t =>
      dsimp only
      cases hpipe : pipe (completionArgs req p t eosId) with
      | none => simp [statusOf]
      | some outs => simp [statusOf]
  · intro t ht
    rw [ht]
    dsimp only
    cases hpipe : pipe (completionArgs req p t eosId) with
    | none => exact ⟨rfl, rfl⟩
    | some outs => exact ⟨rfl, rfl⟩

/-- Witness for the amended C4 at the concrete request with prompt
`[""]` and the default temperature. -/
theorem completions_accepts_any_first_element_witness :
    reqEmptyStr.prompt = some ("" :: []) ∧
    reqEmptyStr.temperature = some 1 ∧
    statusOf (completions tok0 pipe0 "model" none "id" 7 reqEmptyStr).1 ≠ 400 ∧
    (completions tok0 pipe0 "model" none "id" 7 reqEmptyStr).2 =
      [completionArgs reqEmptyStr "" 1 none] ∧
    (completionArgs reqEmptyStr "" 1 none).prompt = some "" :=
  ⟨rfl, rfl,
    (completions_accepts_any_first_element tok0 pipe0 "model" none "id" 7
      reqEmptyStr "" [] rfl).1,
    ((completions_accepts_any_first_element tok0 pipe0 "model" none "id" 7
      reqEmptyStr "" [] rfl).2 1 rfl).1,
    ((completions_accepts_any_first_element tok0 pipe0 "model" none "id" 7
      reqEmptyStr "" [] rfl).2 1 rfl).2⟩

/-- Counterexample to claim C6 as stated: `stop` is not forwarded to
the pipeline.  Two requests identical except for `stop` produce the
identical (single) pipeline call, so the call cannot carry the request
value of `stop`. -/
theorem completions_stop_not_forwarded :
    reqStopA.stop ≠ reqStopB.stop ∧
    (completions tok0 pipe0 "model" none "id" 7 reqStopA).2 =
      (completions tok0 pipe0 "model" none "id" 7 reqStopB).2 :=
  ⟨by decide, by decide⟩

/-- Claim C6 amended: a `/v1/completions` request with a non-empty
prompt list and a non-null `temperature` leads to exactly one blocking
pipeline call whose arguments are copied from the request as follows:
`temperature`, `top_p` and `n` unchanged; `max_new_tokens` taken from
the request `max_new_tokens` with fallback to `max_tokens`; `do_sample`
derived as `temperature > 0`; `eos` and `pad` token ids from the
tokenizer.  `stop` is accepted but ignored and not forwarded; a null
`temperature` makes the `do_sample` computation raise inside the `try`,
so the handler answers 500 with zero pipeline calls. -/
theorem completions_pipeline_args_forwarding
    (tok : String → List Nat) (pipe : PipelineArgs → Option (List GenOut))
    (modelDir : String) (eosId : Option Nat) (newId : String) (now : Int)
    (req : CompletionRequest) (p : String) (rest : List String)
    (hp : req.prompt = some (p :: rest)) :
    (req.temperature = none →
      completions tok pipe modelDir eosId newId now req =
        (.httpError 500 "Text generation failed", [])) ∧
    ∀ t, req.temperature = some t →
      (completions tok pipe modelDir eosId newId now req).2 =
        [completionArgs req p t eosId] ∧
      completionArgs req p t eosId =
        { prompt := some p
          max_new_tokens := maxTokensToUse req.max_new_tokens req.max_tokens
          do_sample := decide (0 < t)
          temperature := t
          top_p := req.top_p
          num_return_sequences := req.n
          eos_token_id := eosId
          pad_token_id := eosId } := by
  unfold completions
  rw [hp]
  dsimp only
  constructor
  · intro ht
    rw [ht]
  · intro t ht
    rw [ht]
    dsimp only
    cases hpipe : pipe (completionArgs req p t eosId) with
    | none => exact ⟨rfl, rfl⟩
    | some outs => exact ⟨rfl, rfl⟩

/-- Witness for the amended C6: at the concrete request `reqW` (default
temperature `1`) the single forwarded call is exhibited, and at
`reqNullTemp` (explicit null temperature) the 500 with zero pipeline
calls is exhibited. -/
theorem completions_pipeline_args_forwarding_witness :
    reqW.prompt = some ("hi" :: []) ∧
    reqW.temperature = some 1 ∧
    (completions tok0 pipe0 "model" none "id" 7 reqW).2 =
      [completionArgs reqW "hi" 1 none] ∧
    completionArgs reqW "hi" 1 none =
      { prompt := some "hi"
        max_new_tokens := maxTokensToUse reqW.max_new_tokens reqW.max_tokens
        do_sample := decide (0 < (1 : Rat))
        temperature := 1
        top_p := reqW.top_p
        num_return_sequences := reqW.n
        eos_token_id := none
        pad_token_id := none } ∧
    reqNullTemp.temperature = none ∧
    completions tok0 pipe0 "model" none "id" 7 reqNullTemp =
      (.httpError 500 "Text generation failed", []) :=
  ⟨rfl, rfl,
    ((completions_pipeline_args_forwarding tok0 pipe0 "model" none "id" 7 reqW
      "hi" [] rfl).2 1 rfl).1,
    ((completions_pipeline_args_forwarding tok0 pipe0 "model" none "id" 7 reqW
      "hi" [] rfl).2 1 rfl).2,
    rfl,
    (completions_pipeline_args_forwarding tok0 pipe0 "model" none "id" 7 reqNullTemp
      "hi" [] rfl).1 rfl⟩

/-- Claim C9: for a chat request not taking the functions
short-circuit, only the content of the last user-role message matters:
two requests identical except for their message lists, with the same
last-user-message content, lead to identical pipeline calls and
identical responses. -/
theorem chat_only_last_user_content_matters
    (tok : String → List Nat) (pipe : PipelineArgs → Option (List GenOut))
    (modelDir : String) (eosId : Option Nat) (newId : String) (now : Int)
    (req : ChatCompletionRequest) (ms₁ ms₂ : List ChatMessage) (c : Option String)
    (h₁ : lastUserContent ms₁ = some c) (h₂ : lastUserContent ms₂ = some c)
    (hfn : req.functions = none ∨ req.functions = some []) :
    chat_completions tok pipe modelDir eosId newId now { req with messages := ms₁ } =
      chat_completions tok pipe modelDir eosId newId now { req with messages := ms₂ } := by
  rcases req with ⟨m, ms₀, fns, mt, mnt, t, tp, n, st, sp⟩
  dsimp only at hfn ⊢
  unfold chat_completions
  dsimp only
  rw [h₁, h₂]
  rcases hfn with h | h <;> subst h <;> rfl

/-- Witness for C9: a long conversation (system, earlier user,
assistant, user `"hi"`) and the single-message conversation (user
`"hi"`) lead to the same result. -/
theorem chat_only_last_user_content_matters_witness :
    lastUserContent msgsLong = some (some "hi") ∧
    lastUserContent msgsShort = some (some "hi") ∧
    (creqW.functions = none ∨ creqW.functions = some []) ∧
    chat_completions tok0 pipe0 "model" none "id" 7 { creqW with messages := msgsLong } =
      chat_completions tok0 pipe0 "model" none "id" 7 { creqW with messages := msgsShort } :=
  ⟨by decide, by decide, Or.inl rfl,
    chat_only_last_user_content_matters tok0 pipe0 "model" none "id" 7 creqW
      msgsLong msgsShort (some "hi") (by decide) (by decide) (Or.inl rfl)⟩

/-- Every truncated token count is at most 512. -/
theorem tokTrunc_le_512 (tok : String → List Nat) (s : String) : tokTrunc tok s ≤ 512 := by
  unfold tokTrunc
  rw [List.length_take]
  exact min_le_left _ _

/-- Summed per-output truncated token counts are bounded by `512` per
output. -/
theorem sum_tokTrunc_le (tok : String → List Nat) (f : GenOut → String)
    (outs : List GenOut) :
    (outs.map fun out => tokTrunc tok (f out)).sum ≤ 512 * outs.length := by
  have hb : ∀ x ∈ outs.map (fun out => tokTrunc tok (f out)), x ≤ 512 := by
    intro x hx
    rcases List.mem_map.mp hx with ⟨o, _, rfl⟩
    exact tokTrunc_le_512 tok (f o)
  have h := List.sum_le_card_nsmul _ _ hb
  simpa [smul_eq_mul, mul_comm] using h

/-- Usage bounds for a successful completion response. -/
theorem completionSuccess_usage_bounds (tok : String → List Nat)
    (modelDir newId : String) (now : Int) (req : CompletionRequest)
    (p : String) (outs : List GenOut) :
    (completionSuccess tok modelDir newId now req p outs).usage.prompt_tokens ≤ 512 ∧
    (completionSuccess tok modelDir newId now req p outs).usage.completion_tokens ≤
      512 * (completionSuccess tok modelDir newId now req p outs).choices.length := by
  unfold completionSuccess
  refine ⟨tokTrunc_le_512 tok p, ?_⟩
  simp only [List.length_map, List.enum_length]
  exact sum_tokTrunc_le tok (completionText p) outs

/-- Usage bounds for a successful chat response. -/
theorem chatSuccess_usage_bounds (tok : String → List Nat)
    (modelDir newId : String) (now : Int) (req : ChatCompletionRequest)
    (prompt : String) (outs : List GenOut) :
    (chatSuccess tok modelDir newId now req prompt outs).usage.prompt_tokens ≤ 512 ∧
    (chatSuccess tok modelDir newId now req prompt outs).usage.completion_tokens ≤
      512 * (chatSuccess tok modelDir newId now req prompt outs).choices.length := by
  unfold chatSuccess
  refine ⟨tokTrunc_le_512 tok prompt, ?_⟩
  simp only [List.length_map, List.enum_length]
  exact sum_tokTrunc_le tok (completionText prompt) outs

/-- Usage bounds for the stub function-call response. -/
theorem chatStubResponse_usage_bounds (tok : String → List Nat)
    (modelDir newId : String) (now : Int) (req : ChatCompletionRequest)
    (func : FunctionSpec) (prompt : String) :
    (chatStubResponse tok modelDir newId now req func prompt).usage.prompt_tokens ≤ 512 ∧
    (chatStubResponse tok modelDir newId now req func prompt).usage.completion_tokens ≤
      512 * (chatStubResponse tok modelDir newId now req func prompt).choices.length := by
  unfold chatStubResponse
  exact ⟨tokTrunc_le_512 tok prompt, Nat.zero_le _⟩

/-- Claim C10: in every successful response of `/v1/completions` and
`/v1/chat/completions`, the usage counts are computed by re-tokenizing
with truncation at 512 tokens: `prompt_tokens` is at most 512 and
`completion_tokens`, a sum of per-choice contributions each at most
512, is at most `512 *` the number of choices. -/
theorem usage_counts_truncated_at_512
    (tok tok' : String → List Nat) (pipe pipe' : PipelineArgs → Option (List GenOut))
    (modelDir modelDir' : String) (eosId eosId' : Option Nat) (newId newId' : String)
    (now now' : Int) (req : CompletionRequest) (creq : ChatCompletionRequest)
    (resp₁ : CompletionResponse) (resp₂ : ChatCompletionResponse)
    (h₁ : (completions tok pipe modelDir eosId newId now req).1 = .ok resp₁)
    (h₂ : (chat_completions tok' pipe' modelDir' eosId' newId' now' creq).1 = .ok resp₂) :
    (resp₁.usage.prompt_tokens ≤ 512 ∧
     resp₁.usage.completion_tokens ≤ 512 * resp₁.choices.length) ∧
    (resp₂.usage.prompt_tokens ≤ 512 ∧
     resp₂.usage.completion_tokens ≤ 512 * resp₂.choices.length) := by
  constructor
  · unfold completions at h₁
    cases hq : req.prompt with
    | none => rw [hq] at h₁; simp at h₁
    | some l =>
      cases l with
      | nil => rw [hq] at h₁; simp at h₁
      | cons p rest =>
        rw [hq] at h₁
        dsimp only at h₁
        cases ht : req.temperature with
        | none => rw [ht] at h₁; simp at h₁
        | some t =>
          rw [ht] at h₁
          dsimp only at h₁
          cases hpipe : pipe (completionArgs req p t eosId) with
          | none => rw [hpipe] at h₁; simp at h₁
          | some outs =>
            rw [hpipe] at h₁
            simp only [Outcome.ok.injEq] at h₁
            subst h₁
            exact completionSuccess_usage_bounds tok modelDir newId now req p outs
  · unfold chat_completions at h₂
    cases hl : lastUserContent creq.messages with
    | none => rw [hl] at h₂; simp at h₂
    | some promptOpt =>
      rw [hl] at h₂
      dsimp only at h₂
      cases hfn : creq.functions with
      | none =>
        rw [hfn] at h₂
        dsimp only at h₂
        cases ht : creq.temperature with
        | none => rw [ht] at h₂; simp at h₂
        | some t =>
          rw [ht] at h₂
          dsimp only at h₂
          cases promptOpt with
          | none => simp at h₂
          | some prompt =>
            cases hpipe : pipe' (chatArgs creq (some prompt) t eosId') with
            | none => rw [hpipe] at h₂; simp at h₂
            | some outs =>
              rw [hpipe] at h₂
              simp only [Outcome.ok.injEq] at h₂
              subst h₂
              exact chatSuccess_usage_bounds tok' modelDir' newId' now' creq prompt outs
      | some fl =>
        cases fl with
        | nil =>
          rw [hfn] at h₂
          dsimp only at h₂
          cases ht : creq.temperature with
          | none => rw [ht] at h₂; simp at h₂
          | some t =>
            rw [ht] at h₂
            dsimp only at h₂
            cases promptOpt with
            | none => simp at h₂
            | some prompt =>
              cases hpipe : pipe' (chatArgs creq (some prompt) t eosId') with
              | none => rw [hpipe] at h₂; simp at h₂
              | some outs =>
                rw [hpipe] at h₂
                simp only [Outcome.ok.injEq] at h₂
                subst h₂
                exact chatSuccess_usage_bounds tok' modelDir' newId' now' creq prompt outs
        | cons func fs =>
          rw [hfn] at h₂
          dsimp only at h₂
          cases promptOpt with
          | none => simp at h₂
          | some prompt =>
            simp only [Outcome.ok.injEq] at h₂
            subst h₂
            exact chatStubResponse_usage_bounds tok' modelDir' newId' now' creq func prompt

/-- Witness for C10 at concrete successful responses of both
endpoints. -/
theorem usage_counts_truncated_at_512_witness :
    (completions tok0 pipe0 "model" none "id" 7 reqW).1 =
      .ok (completionSuccess tok0 "model" "id" 7 reqW "hi" outsW) ∧
    (chat_completions tok0 pipe0 "model" none "id" 7 creqW).1 =
      .ok (chatSuccess tok0 "model" "id" 7 creqW "hi" outsW) ∧
    (((completionSuccess tok0 "model" "id" 7 reqW "hi" outsW).usage.prompt_tokens ≤ 512 ∧
      (completionSuccess tok0 "model" "id" 7 reqW "hi" outsW).usage.completion_tokens ≤
        512 * (completionSuccess tok0 "model" "id" 7 reqW "hi" outsW).choices.length) ∧
     ((chatSuccess tok0 "model" "id" 7 creqW "hi" outsW).usage.prompt_tokens ≤ 512 ∧
      (chatSuccess tok0 "model" "id" 7 creqW "hi" outsW).usage.completion_tokens ≤
        512 * (chatSuccess tok0 "model" "id" 7 creqW "hi" outsW).choices.length)) :=
  ⟨rfl, rfl,
    usage_counts_truncated_at_512 tok0 tok0 pipe0 pipe0 "model" "model" none none
      "id" "id" 7 7 reqW creqW
      (completionSuccess tok0 "model" "id" 7 reqW "hi" outsW)
      (chatSuccess tok0 "model" "id" 7 creqW "hi" outsW) rfl rfl⟩

end Server
